import Mathlib

/-!
Shallow embedding of the trysafely micro-library (EllyBax/trysafely).

The repository contains four near-duplicate wrappers that run a producer
under a try/catch boundary and return failures as data:

  * `src/src/index.ts`          : `trySafely` returning `{result, error}`
  * `src/src/promises/index.ts` : `tryPromise` returning `{result, error}`
  * `src/unnamed/part_000` (doc 1): `tryAsync`, `trySync` and the default
    fully-dynamic `trySafely`, all returning `{data, err}`
  * `src/unnamed/part_000` (doc 2): `trySafely` returning a tuple
    `[value_or_null, error_or_null]`

The embedding models a small universe of JavaScript runtime values
(`JSVal`), producers as either non-callable values or callables with a
fixed behavior (throw a value or return a value), `await` as recursive
promise unwrapping, and the dynamic thenable probe
`res !== null && typeof res.then === "function"` including the fact that
the property access `res.then` throws a TypeError when `res` is
`undefined` (short-circuiting protects only `null`).
-/

/-- Kind of a JavaScript `Error` object: `Error` itself or `TypeError`.
A `TypeError` is an `instanceof Error`, which `instanceofError` reflects. -/
inductive ErrKind where
  | plain
  | typeError
deriving DecidableEq, Repr

/-- A JavaScript runtime value, as far as the library can observe it:
primitives, `Error` objects carrying a message, settled promises
(resolved or rejected, the canonical thenables), and a generic
non-thenable object. -/
inductive JSVal where
  | vUndefined
  | vNull
  | vBool (b : Bool)
  | vNum (n : Int)
  | vStr (s : String)
  | vError (k : ErrKind) (msg : String)
  | vPromiseResolved (v : JSVal)
  | vPromiseRejected (reason : JSVal)
  | vObj
deriving DecidableEq, Repr

/-- The JavaScript `instanceof Error` test used by every catch block:
`error instanceof Error`. -/
def instanceofError : JSVal → Bool
  | .vError _ _ => true
  | _ => false

/-- Name of the error class, as used by `Error.prototype.toString`. -/
def errName : ErrKind → String
  | .plain => "Error"
  | .typeError => "TypeError"

/-- The JavaScript `String(x)` coercion on the modelled values. -/
def jsToString : JSVal → String
  | .vUndefined => "undefined"
  | .vNull => "null"
  | .vBool true => "true"
  | .vBool false => "false"
  | .vNum n => toString n
  | .vStr s => s
  | .vError k m => errName k ++ ": " ++ m
  | .vPromiseResolved _ => "[object Promise]"
  | .vPromiseRejected _ => "[object Promise]"
  | .vObj => "[object Object]"

/-- The normalization step shared verbatim by every catch block in the
repository: `error instanceof Error ? error : new Error(String(error))`. -/
def normalizeErr : JSVal → JSVal
  | .vError k m => .vError k m
  | e => .vError .plain (jsToString e)

/-- What a zero-argument callable does when invoked: it either throws a
value or returns a value. -/
inductive CallBehavior where
  | throws (v : JSVal)
  | returns (v : JSVal)
deriving DecidableEq, Repr

/-- A producer argument as passed to the wrappers: either a value that is
not a function at all, or a callable with a fixed behavior. -/
inductive Producer where
  | notCallable (v : JSVal)
  | callable (beh : CallBehavior)
deriving DecidableEq, Repr

/-- Invoking a callable: `Except.error` is a thrown value. -/
def callBehavior : CallBehavior → Except JSVal JSVal
  | .throws v => .error v
  | .returns v => .ok v

/-- The JavaScript call `fn()`: calling a non-function throws
`TypeError: fn is not a function`; a callable runs its behavior. -/
def callProducer : Producer → Except JSVal JSVal
  | .notCallable _ => .error (.vError .typeError "fn is not a function")
  | .callable beh => callBehavior beh

/-- The JavaScript `await v`: a resolved promise is unwrapped recursively
(`Promise.resolve(p)` adopts `p`), a rejected promise throws its reason
as-is, and any other value awaits to itself. -/
def awaitVal : JSVal → Except JSVal JSVal
  | .vPromiseResolved w => awaitVal w
  | .vPromiseRejected r => .error r
  | v => .ok v

/-- The composite `await fn()` performed inside the try block of
`trySafely` (index.ts), `tryAsync` and the tuple-form `trySafely`:
the synchronous call happens inside the boundary, then its value is
awaited. -/
def runAwaited (fn : Producer) : Except JSVal JSVal :=
  match callProducer fn with
  | .error e => .error e
  | .ok v => awaitVal v

/-- The thenable probe of the fully-dynamic variant:
`res !== null && typeof (res as any).then === "function"`.
Short-circuiting protects `null` only; on `undefined` the property
access `res.then` itself throws a TypeError, which the probe propagates
as a thrown value. Settled promises are the thenables of the model. -/
def isThenable : JSVal → Except JSVal Bool
  | .vUndefined =>
      .error (.vError .typeError "Cannot read properties of undefined (reading then)")
  | .vNull => .ok false
  | .vPromiseResolved _ => .ok true
  | .vPromiseRejected _ => .ok true
  | _ => .ok false

/-- Result shape `{result, error}` of `src/src/index.ts` and
`src/src/promises/index.ts`. Both fields hold JavaScript values; the
absent side is the literal `null`. -/
structure ResultRE where
  result : JSVal
  error : JSVal
deriving DecidableEq, Repr

/-- Result shape `{data, err}` of `tryAsync`, `trySync` and the default
fully-dynamic `trySafely` in `src/unnamed/part_000`. -/
structure ResultDE where
  data : JSVal
  err : JSVal
deriving DecidableEq, Repr

namespace IndexTs

/-- Embedding of `trySafely` from `src/src/index.ts`:
try { const data = await fn(); return { result: data, error: null }; }
catch (error) { return { result: null, error: normalized }; }. -/
def trySafely (fn : Producer) : ResultRE :=
  match runAwaited fn with
  | .ok v => { result := v, error := .vNull }
  | .error e => { result := .vNull, error := normalizeErr e }

end IndexTs

namespace Promises

/-- Embedding of `tryPromise` from `src/src/promises/index.ts`: awaits an
already-constructed promise under the same try/catch. -/
def tryPromise (promise : JSVal) : ResultRE :=
  match awaitVal promise with
  | .ok v => { result := v, error := .vNull }
  | .error e => { result := .vNull, error := normalizeErr e }

end Promises

namespace Dyn

/-- Embedding of `tryAsync` from `src/unnamed/part_000`:
`await fn()` under try/catch, returned as `{data, err}`. -/
def tryAsync (fn : Producer) : ResultDE :=
  match runAwaited fn with
  | .ok v => { data := v, err := .vNull }
  | .error e => { data := .vNull, err := normalizeErr e }

/-- Embedding of `trySync` from `src/unnamed/part_000`: the call is made
under try/catch and its value is returned without awaiting. -/
def trySync (fn : Producer) : ResultDE :=
  match callProducer fn with
  | .ok v => { data := v, err := .vNull }
  | .error e => { data := .vNull, err := normalizeErr e }

/-- Body of the try block of the fully-dynamic default `trySafely`:
call the behavior, probe the result for a callable `then` member
(the probe itself may throw), and await exactly when the probe said
the value is thenable. -/
def tryBody (beh : CallBehavior) : Except JSVal JSVal :=
  match callBehavior beh with
  | .error e => .error e
  | .ok res =>
    match isThenable res with
    | .error e => .error e
    | .ok true => awaitVal res
    | .ok false => .ok res

/-- Embedding of the default fully-dynamic `trySafely` from
`src/unnamed/part_000`. The guard `typeof fn !== "function"` runs before
the try block and throws `new Error("fn must be a function")`, so that
single failure escapes the entry point (modelled as `Except.error`);
every failure inside the try block is caught and returned as data. -/
def trySafely (fn : Producer) : Except JSVal ResultDE :=
  match fn with
  | .notCallable _ => .error (.vError .plain "fn must be a function")
  | .callable beh =>
    .ok (match tryBody beh with
      | .ok v => { data := v, err := .vNull }
      | .error e => { data := .vNull, err := normalizeErr e })

end Dyn

namespace TupleForm

/-- Embedding of the tuple-form `trySafely` from `src/unnamed/part_000`
(doc 2): same try/catch as index.ts but returning `[result, error]`. -/
def trySafely (fn : Producer) : JSVal × JSVal :=
  match runAwaited fn with
  | .ok v => (v, .vNull)
  | .error e => (.vNull, normalizeErr e)

end TupleForm

/-- An `{result, error}` result is a failure result: payload is the
literal `null` and the error field holds a proper `Error` object. -/
def isErrRE (r : ResultRE) : Prop :=
  r.result = .vNull ∧ instanceofError r.error = true

/-- A `{data, err}` result is a failure result. -/
def isErrDE (r : ResultDE) : Prop :=
  r.data = .vNull ∧ instanceofError r.err = true

/-- A tuple result is a failure result. -/
def isErrTuple (r : JSVal × JSVal) : Prop :=
  r.1 = .vNull ∧ instanceofError r.2 = true

/-- Mutual exclusivity as the spec states it for `{result, error}`:
exactly one field is non-null. -/
def exclusiveRE (r : ResultRE) : Prop :=
  (r.result ≠ .vNull ∧ r.error = .vNull) ∨ (r.result = .vNull ∧ r.error ≠ .vNull)

/-- The exclusivity invariant the code actually maintains on
`{result, error}`: the error field is either the literal `null`
(success; the payload may itself be `null`) or a proper `Error` object
with the payload `null` (failure). Never are both sides populated. -/
def okOrErrRE (r : ResultRE) : Prop :=
  (instanceofError r.error = true ∧ r.result = .vNull) ∨ r.error = .vNull

/-- The invariant the code maintains on `{data, err}`. -/
def okOrErrDE (r : ResultDE) : Prop :=
  (instanceofError r.err = true ∧ r.data = .vNull) ∨ r.err = .vNull

/-- The invariant the code maintains on the tuple shape. -/
def okOrErrTuple (r : JSVal × JSVal) : Prop :=
  (instanceofError r.2 = true ∧ r.1 = .vNull) ∨ r.2 = .vNull

/-- The invariant on the fully-dynamic entry point, which may itself fail
on a non-callable input: on that path the escaped value is a proper
`Error` object, on every other path the returned record satisfies the
`{data, err}` invariant. -/
def okOrErrDyn (x : Except JSVal ResultDE) : Prop :=
  match x with
  | .ok r => okOrErrDE r
  | .error e => instanceofError e = true

/-! ## Helper lemmas -/

/-- The normalization step always yields a proper `Error` object. -/
theorem instanceofError_normalizeErr (e : JSVal) :
    instanceofError (normalizeErr e) = true := by
  cases e <;> rfl

/-- Every run of the fully-dynamic variant on a callable returns a normal
record; nothing from inside the try block escapes. -/
theorem dyn_trySafely_callable_isOk (beh : CallBehavior) :
    ∃ r : ResultDE, Dyn.trySafely (.callable beh) = .ok r :=
  ⟨_, rfl⟩

/-! ## Claim theorems -/

/-- Claim C1: for every producer whose invocation or awaited settlement
fails in any way, every entry point returns a normal Err-carrying result
and never itself raises; the only escape is the non-callable input of
the fully-dynamic variant, and even that escapes with a proper `Error`
object. -/
theorem c1_never_raises
    (fn fs : Producer) (beh : CallBehavior) (p e eP eS eD : JSVal)
    (h1 : runAwaited fn = .error e)
    (h2 : awaitVal p = .error eP)
    (h3 : callProducer fs = .error eS)
    (h4 : Dyn.tryBody beh = .error eD) :
    isErrRE (IndexTs.trySafely fn) ∧
    isErrDE (Dyn.tryAsync fn) ∧
    isErrTuple (TupleForm.trySafely fn) ∧
    isErrRE (Promises.tryPromise p) ∧
    isErrDE (Dyn.trySync fs) ∧
    (Dyn.trySafely (.callable beh) =
        .ok { data := .vNull, err := normalizeErr eD } ∧
      isErrDE { data := .vNull, err := normalizeErr eD }) ∧
    (∀ b : CallBehavior, ∃ r : ResultDE, Dyn.trySafely (.callable b) = .ok r) ∧
    (∀ v : JSVal,
      Dyn.trySafely (.notCallable v) = .error (.vError .plain "fn must be a function")) := by
  refine ⟨?_, ?_, ?_, ?_, ?_, ⟨?_, ?_⟩, ?_, ?_⟩
  · simp [IndexTs.trySafely, h1, isErrRE, instanceofError_normalizeErr]
  · simp [Dyn.tryAsync, h1, isErrDE, instanceofError_normalizeErr]
  · simp [TupleForm.trySafely, h1, isErrTuple, instanceofError_normalizeErr]
  · simp [Promises.tryPromise, h2, isErrRE, instanceofError_normalizeErr]
  · simp [Dyn.trySync, h3, isErrDE, instanceofError_normalizeErr]
  · simp [Dyn.trySafely, h4]
  · simp [isErrDE, instanceofError_normalizeErr]
  · intro b; exact ⟨_, rfl⟩
  · intro v; rfl

/-- Witness for C1 at concrete failing inputs: a producer throwing
`Error("boom")`, an already-rejected promise with reason `"nope"`, and
the fully-dynamic variant on the same throwing producer returning the
Err-shaped record as data. -/
theorem c1_never_raises_witness :
    isErrRE (IndexTs.trySafely (.callable (.throws (.vError .plain "boom")))) ∧
    isErrRE (Promises.tryPromise (.vPromiseRejected (.vStr "nope"))) ∧
    Dyn.trySafely (.callable (.throws (.vError .plain "boom"))) =
      .ok { data := .vNull, err := .vError .plain "boom" } :=
  ⟨(c1_never_raises (.callable (.throws (.vError .plain "boom")))
      (.callable (.throws (.vError .plain "boom")))
      (.throws (.vError .plain "boom"))
      (.vPromiseRejected (.vStr "nope"))
      (.vError .plain "boom") (.vStr "nope") (.vError .plain "boom")
      (.vError .plain "boom")
      rfl rfl rfl rfl).1,
   (c1_never_raises (.callable (.throws (.vError .plain "boom")))
      (.callable (.throws (.vError .plain "boom")))
      (.throws (.vError .plain "boom"))
      (.vPromiseRejected (.vStr "nope"))
      (.vError .plain "boom") (.vStr "nope") (.vError .plain "boom")
      (.vError .plain "boom")
      rfl rfl rfl rfl).2.2.2.1,
   (c1_never_raises (.callable (.throws (.vError .plain "boom")))
      (.callable (.throws (.vError .plain "boom")))
      (.throws (.vError .plain "boom"))
      (.vPromiseRejected (.vStr "nope"))
      (.vError .plain "boom") (.vStr "nope") (.vError .plain "boom")
      (.vError .plain "boom")
      rfl rfl rfl rfl).2.2.2.2.2.1.1⟩

/-- Claim C2, counterexample: a producer that successfully returns `null`
yields `{result: null, error: null}`, so neither field is populated and
the spec-stated exclusivity (exactly one field non-null) fails. -/
theorem c2_counterexample :
    IndexTs.trySafely (.callable (.returns .vNull)) =
      { result := .vNull, error := .vNull } ∧
    ¬ exclusiveRE (IndexTs.trySafely (.callable (.returns .vNull))) := by
  constructor
  · rfl
  · intro h
    rcases h with ⟨h1, _⟩ | ⟨_, h2⟩
    · exact h1 rfl
    · exact h2 rfl

/-- Claim C2, amended: every entry point maintains the weaker invariant
that the error side is either the literal `null` (success; the payload
may itself be `null`, in which case both fields are `null`) or a proper
`Error` object with the payload `null`; both sides populated never
happens. -/
theorem c2_amended_exclusivity (fn fs : Producer) (p : JSVal) :
    okOrErrRE (IndexTs.trySafely fn) ∧
    okOrErrDE (Dyn.tryAsync fn) ∧
    okOrErrDE (Dyn.trySync fs) ∧
    okOrErrRE (Promises.tryPromise p) ∧
    okOrErrTuple (TupleForm.trySafely fn) ∧
    okOrErrDyn (Dyn.trySafely fn) := by
  refine ⟨?_, ?_, ?_, ?_, ?_, ?_⟩
  · cases h : runAwaited fn <;>
      simp [IndexTs.trySafely, h, okOrErrRE, instanceofError_normalizeErr]
  · cases h : runAwaited fn <;>
      simp [Dyn.tryAsync, h, okOrErrDE, instanceofError_normalizeErr]
  · cases h : callProducer fs <;>
      simp [Dyn.trySync, h, okOrErrDE, instanceofError_normalizeErr]
  · cases h : awaitVal p <;>
      simp [Promises.tryPromise, h, okOrErrRE, instanceofError_normalizeErr]
  · cases h : runAwaited fn <;>
      simp [TupleForm.trySafely, h, okOrErrTuple, instanceofError_normalizeErr]
  · cases fn with
    | notCallable v => simp [Dyn.trySafely, okOrErrDyn, instanceofError]
    | callable beh =>
      cases h : Dyn.tryBody beh <;>
        simp [Dyn.trySafely, h, okOrErrDyn, okOrErrDE, instanceofError_normalizeErr]

/-- Claim C3, counterexample: on a non-callable input the fully-dynamic
variant fails with a plain `Error` (not a TypeError-class value) whose
message is exactly `"fn must be a function"`, which differs from the
claimed `"producer must be callable"`. -/
theorem c3_counterexample :
    Dyn.trySafely (.notCallable (.vNum 5)) =
      .error (.vError .plain "fn must be a function") ∧
    (JSVal.vError .plain "fn must be a function" ≠
      JSVal.vError .typeError "fn must be a function") ∧
    ("fn must be a function" ≠ "producer must be callable") := by
  refine ⟨rfl, by decide, by decide⟩

/-- Claim C3, amended: in the fully-dynamic variant, passing any
non-callable value fails before the try boundary with a plain
`Error`-class value whose message is exactly `"fn must be a function"`. -/
theorem c3_amended_noncallable (v : JSVal) :
    Dyn.trySafely (.notCallable v) =
      .error (.vError .plain "fn must be a function") := rfl

/-- Claim C4: every entry point normalizes the failure value — a value
that is not already an `Error` instance is wrapped into a plain `Error`
whose message is its string representation, while `Error` instances are
used as-is. -/
theorem c4_error_normalization
    (fn fs : Producer) (beh : CallBehavior) (p e : JSVal)
    (h1 : runAwaited fn = .error e)
    (h2 : awaitVal p = .error e)
    (h3 : callProducer fs = .error e)
    (h4 : Dyn.tryBody beh = .error e) :
    (instanceofError e = false →
      (IndexTs.trySafely fn).error = .vError .plain (jsToString e) ∧
      (Dyn.tryAsync fn).err = .vError .plain (jsToString e) ∧
      (Dyn.trySync fs).err = .vError .plain (jsToString e) ∧
      (TupleForm.trySafely fn).2 = .vError .plain (jsToString e) ∧
      (Promises.tryPromise p).error = .vError .plain (jsToString e) ∧
      Dyn.trySafely (.callable beh) =
        .ok { data := .vNull, err := .vError .plain (jsToString e) }) ∧
    (instanceofError e = true →
      (IndexTs.trySafely fn).error = e ∧
      (Dyn.tryAsync fn).err = e ∧
      (Dyn.trySync fs).err = e ∧
      (TupleForm.trySafely fn).2 = e ∧
      (Promises.tryPromise p).error = e ∧
      Dyn.trySafely (.callable beh) = .ok { data := .vNull, err := e }) := by
  have hn : ∀ x : JSVal, instanceofError x = false → normalizeErr x = .vError .plain (jsToString x) := by
    intro x hx
    cases x <;> first | rfl | simp [instanceofError] at hx
  have hi : ∀ x : JSVal, instanceofError x = true → normalizeErr x = x := by
    intro x hx
    cases x <;> first | rfl | simp [instanceofError] at hx
  constructor
  · intro hfe
    refine ⟨?_, ?_, ?_, ?_, ?_, ?_⟩ <;>
      simp [IndexTs.trySafely, Dyn.tryAsync, Dyn.trySync, TupleForm.trySafely,
        Promises.tryPromise, Dyn.trySafely, h1, h2, h3, h4, hn e hfe]
  · intro hfe
    refine ⟨?_, ?_, ?_, ?_, ?_, ?_⟩ <;>
      simp [IndexTs.trySafely, Dyn.tryAsync, Dyn.trySync, TupleForm.trySafely,
        Promises.tryPromise, Dyn.trySafely, h1, h2, h3, h4, hi e hfe]

/-- Witness for C4: a producer whose promise rejects with the non-error
string `"nope"` yields an `Error` whose message is exactly `"nope"`. -/
theorem c4_error_normalization_witness :
    (Dyn.tryAsync (.callable (.returns (.vPromiseRejected (.vStr "nope"))))).err =
      .vError .plain "nope" :=
  ((c4_error_normalization
      (.callable (.returns (.vPromiseRejected (.vStr "nope"))))
      (.callable (.throws (.vStr "nope")))
      (.returns (.vPromiseRejected (.vStr "nope")))
      (.vPromiseRejected (.vStr "nope")) (.vStr "nope")
      rfl rfl rfl rfl).1 rfl).2.1

/-- Claim C5, counterexample: a producer that successfully returns
`undefined` — a value that exposes no callable `then` member, hence is
not awaitable — does not get `undefined` back as the success payload;
the thenable probe itself throws on `undefined` and the dynamic variant
returns an Err result instead. -/
theorem c5_counterexample :
    Dyn.trySafely (.callable (.returns .vUndefined)) =
      .ok { data := .vNull,
            err := .vError .typeError "Cannot read properties of undefined (reading then)" } ∧
    Dyn.trySafely (.callable (.returns .vUndefined)) ≠
      .ok { data := .vUndefined, err := .vNull } := by
  refine ⟨rfl, ?_⟩
  intro h
  rw [show Dyn.trySafely (.callable (.returns .vUndefined)) =
      .ok { data := .vNull,
            err := .vError .typeError "Cannot read properties of undefined (reading then)" }
    from rfl] at h
  exact absurd (Except.ok.inj h) (by decide)

/-- Claim C5, amended: in the fully-dynamic variant, every produced value
on which the thenable probe succeeds with `false` (any non-thenable
other than `undefined`, whose probe throws instead) is returned as the
success payload with no await; every value on which the probe succeeds
with `true` is awaited and its settlement value becomes the payload —
in particular the literal `42` yields payload `42` and no error. -/
theorem c5_amended_passthrough (res : JSVal)
    (h1 : isThenable res = .ok false) :
    Dyn.trySafely (.callable (.returns res)) =
      .ok { data := res, err := .vNull } ∧
    (∀ res2 v : JSVal, isThenable res2 = .ok true → awaitVal res2 = .ok v →
      Dyn.trySafely (.callable (.returns res2)) =
        .ok { data := v, err := .vNull }) ∧
    Dyn.trySafely (.callable (.returns (.vNum 42))) =
      .ok { data := .vNum 42, err := .vNull } := by
  refine ⟨?_, ?_, rfl⟩
  · simp [Dyn.trySafely, Dyn.tryBody, callBehavior, h1]
  · intro res2 v h2 h3
    simp [Dyn.trySafely, Dyn.tryBody, callBehavior, h2, h3]

/-- Witness for C5 (amended) at concrete inputs: the literal `42` passes
through, and an already-resolved promise of `"ok"` is awaited to
payload `"ok"`. -/
theorem c5_amended_passthrough_witness :
    Dyn.trySafely (.callable (.returns (.vNum 42))) =
      .ok { data := .vNum 42, err := .vNull } ∧
    Dyn.trySafely (.callable (.returns (.vPromiseResolved (.vStr "ok")))) =
      .ok { data := .vStr "ok", err := .vNull } :=
  ⟨(c5_amended_passthrough (.vNum 42) rfl).1,
   (c5_amended_passthrough (.vNum 42) rfl).2.1
      (.vPromiseResolved (.vStr "ok")) (.vStr "ok") rfl rfl⟩

/-- Claim C6: in the fully-dynamic variant, a producer that successfully
returns `undefined` yields an Err result carrying the TypeError thrown
by the `.then` access inside the thenable probe, not a success carrying
payload `undefined`; a producer returning `null` is protected by the
`res !== null` guard and yields a success result. -/
theorem c6_undefined_err_null_ok :
    Dyn.trySafely (.callable (.returns .vUndefined)) =
      .ok { data := .vNull,
            err := .vError .typeError "Cannot read properties of undefined (reading then)" } ∧
    instanceofError
      (.vError .typeError "Cannot read properties of undefined (reading then)") = true ∧
    Dyn.trySafely (.callable (.returns .vNull)) =
      .ok { data := .vNull, err := .vNull } := by
  exact ⟨rfl, rfl, rfl⟩

/-- Claim C7: a producer that synchronously throws `new Error("boom")`
makes every function-wrapper entry point — synchronous and asynchronous
forms alike — return a result with no payload and an error whose message
is exactly `"boom"`: the call itself happens inside the try boundary. -/
theorem c7_sync_throw_boom :
    Dyn.trySync (.callable (.throws (.vError .plain "boom"))) =
      { data := .vNull, err := .vError .plain "boom" } ∧
    Dyn.tryAsync (.callable (.throws (.vError .plain "boom"))) =
      { data := .vNull, err := .vError .plain "boom" } ∧
    IndexTs.trySafely (.callable (.throws (.vError .plain "boom"))) =
      { result := .vNull, error := .vError .plain "boom" } ∧
    TupleForm.trySafely (.callable (.throws (.vError .plain "boom"))) =
      (.vNull, .vError .plain "boom") ∧
    Dyn.trySafely (.callable (.throws (.vError .plain "boom"))) =
      .ok { data := .vNull, err := .vError .plain "boom" } := by
  exact ⟨rfl, rfl, rfl, rfl, rfl⟩

/-- Claim C8: running the same failing producer through the same entry
point twice yields two structurally equal Err results: both runs produce
the identical record, whose payload is `null` and whose error is the
same normalized `Error` object with the same message. -/
theorem c8_rerun_structural_eq (fn : Producer) (e : JSVal)
    (h : runAwaited fn = .error e) :
    Dyn.tryAsync fn = Dyn.tryAsync fn ∧
    (Dyn.tryAsync fn).data = .vNull ∧
    (Dyn.tryAsync fn).err = normalizeErr e ∧
    instanceofError (Dyn.tryAsync fn).err = true := by
  refine ⟨rfl, ?_, ?_, ?_⟩ <;>
    simp [Dyn.tryAsync, h, instanceofError_normalizeErr]

/-- Witness for C8 at a concrete deterministic failing producer. -/
theorem c8_rerun_structural_eq_witness :
    (Dyn.tryAsync (.callable (.throws (.vStr "nope")))).err =
      normalizeErr (.vStr "nope") :=
  (c8_rerun_structural_eq (.callable (.throws (.vStr "nope"))) (.vStr "nope") rfl).2.2.1

/-- Claim C9: for every producer, the tuple-shaped variant and the
named-fields variants `{result, error}` (index.ts) and `{data, err}`
(`tryAsync`) carry identical semantic content: same payload position,
same normalized error position, other position `null`. -/
theorem c9_shapes_agree (fn : Producer) :
    (TupleForm.trySafely fn).1 = (IndexTs.trySafely fn).result ∧
    (TupleForm.trySafely fn).2 = (IndexTs.trySafely fn).error ∧
    (Dyn.tryAsync fn).data = (IndexTs.trySafely fn).result ∧
    (Dyn.tryAsync fn).err = (IndexTs.trySafely fn).error := by
  cases h : runAwaited fn <;>
    simp [TupleForm.trySafely, IndexTs.trySafely, Dyn.tryAsync, h]

/-- Claim C10: the `{data, err}` wrappers `tryAsync` and `trySync` (and
likewise the other try/catch wrappers) perform no callability check of
their own — a non-callable argument produces an Err result carrying the
TypeError thrown by the attempted call, with nothing raised; only the
fully-dynamic default checks before the try block and lets its
`Error("fn must be a function")` escape. -/
theorem c10_wrappers_no_validation (v : JSVal) :
    Dyn.tryAsync (.notCallable v) =
      { data := .vNull, err := .vError .typeError "fn is not a function" } ∧
    Dyn.trySync (.notCallable v) =
      { data := .vNull, err := .vError .typeError "fn is not a function" } ∧
    IndexTs.trySafely (.notCallable v) =
      { result := .vNull, error := .vError .typeError "fn is not a function" } ∧
    TupleForm.trySafely (.notCallable v) =
      (.vNull, .vError .typeError "fn is not a function") ∧
    Dyn.trySafely (.notCallable v) =
      .error (.vError .plain "fn must be a function") := by
  exact ⟨rfl, rfl, rfl, rfl, rfl⟩
